import Mathlib

/-!
Verification of the `JiraService` façade of atlassian-dc-mcp
(src/packages/jira/src/jira-service.ts) against its specification.

The TypeScript code is shallowly embedded:
* promises that resolve or reject become `Except JsError`;
* JavaScript `Error` objects become the inductive `JsError`
  (a message plus an optional cause);
* plain JavaScript objects used as field bags become association
  lists `List (String × JsValue)` whose spread/override semantics is
  given by `setKey`/`spread`;
* the process environment becomes a function `String → Option String`,
  with JavaScript truthiness of a string value given by `truthy`;
* the module-global mutable `OpenAPI` configuration object becomes the
  structure `OpenAPI`, threaded explicitly: the constructor is a state
  transformer on it, and `stepConfig` describes how a sequence of
  façade calls evolves it.
-/

set_option autoImplicit false

/-- JavaScript `Error`: a message string and an optional `cause`
(another error). -/
inductive JsError where
  | mk (message : String) (cause : Option JsError)
deriving Repr

/-- The `message` property of a JavaScript error. -/
def JsError.message : JsError → String
  | .mk m _ => m

/-- The `cause` property of a JavaScript error. -/
def JsError.cause : JsError → Option JsError
  | .mk _ c => c

/-- Modelled from the spec: `handleApiOperation` is exported by the
`@atlassian-dc-mcp/common` package, whose source is not part of this
repository slice; only its import and call sites are visible.  Per the
spec (§4.1), it invokes the operation; if the operation resolves it
returns the result unchanged; if the operation rejects with `E` it
rejects with a single normalized error whose message is
`"<context>: <message of E>"` and whose cause is `E` itself. -/
def handleApiOperation {α : Type} (operation : Except JsError α)
    (contextMessage : String) : Except JsError α :=
  match operation with
  | .ok v => .ok v
  | .error e => .error (JsError.mk (contextMessage ++ ": " ++ e.message) (some e))

/-- A JavaScript value, as far as the façade's field bags need:
strings, numbers, objects (ordered key/value lists), arrays,
`undefined`. -/
inductive JsValue where
  | str (s : String)
  | num (n : Int)
  | obj (fields : List (String × JsValue))
  | arr (elems : List JsValue)
  | undefined
deriving Repr

/-- Property lookup on a JavaScript object (first binding wins; a
well-formed object has unique keys). -/
def objGet : List (String × JsValue) → String → Option JsValue
  | [], _ => none
  | (k₀, v) :: rest, k => if k₀ = k then some v else objGet rest k

/-- Property assignment on a JavaScript object: overwrite the existing
binding in place, or append a fresh one. -/
def setKey : List (String × JsValue) → String → JsValue → List (String × JsValue)
  | [], k, v => [(k, v)]
  | (k₀, v₀) :: rest, k, v =>
    if k₀ = k then (k, v) :: rest else (k₀, v₀) :: setKey rest k v

/-- JavaScript object spread `\x7b...a, ...b\x7d`: assign each binding
of `b`, in order, onto `a`. -/
def spread (a b : List (String × JsValue)) : List (String × JsValue) :=
  b.foldl (fun acc kv => setKey acc kv.1 kv.2) a

/-- First-defined choice on optional values (`a` wins when present). -/
def orElseO {α : Type} (a b : Option α) : Option α :=
  match a with
  | some v => some v
  | none => b

/-- The module-global `OpenAPI` configuration object of the generated
client, restricted to the three fields the façade writes. -/
structure OpenAPI where
  BASE : String
  TOKEN : String
  VERSION : String
deriving Repr, DecidableEq

/-- A placeholder for the generated client's pre-construction
configuration; every façade construction overwrites all three modelled
fields, so no theorem depends on this value. -/
def OpenAPI.initialConfig : OpenAPI :=
  { BASE := "", TOKEN := "", VERSION := "" }

namespace JiraService

/-- The `JiraService` constructor: writes the shared `OpenAPI` object.
`OpenAPI.BASE = fullBaseUrl ?? https://host/rest`, `OpenAPI.TOKEN = token`,
`OpenAPI.VERSION = "2"`. -/
def construct (host token : String) (fullBaseUrl : Option String)
    (prev : OpenAPI) : OpenAPI :=
  { prev with
    BASE := fullBaseUrl.getD ("https://" ++ host ++ "/rest"),
    TOKEN := token,
    VERSION := "2" }

/-- The search request object passed to
`SearchService.searchUsingSearchRequest`. -/
structure SearchRequest where
  jql : String
  maxResults : Int
  expand : Option (List String)
  startAt : Option Int
deriving Repr, DecidableEq

/-- `searchIssues`: builds the search request (the default for an
omitted `maxResults` is `10`) and forwards it to the underlying search
call through `handleApiOperation`.  The generated client call is the
parameter `search`. -/
def searchIssues {α : Type} (search : SearchRequest → Except JsError α)
    (jql : String) (startAt : Option Int) (expand : Option (List String))
    (maxResults : Option Int) : Except JsError α :=
  handleApiOperation
    (search ⟨jql, maxResults.getD 10, expand, startAt⟩)
    "Error searching issues"

/-- `getIssue`: forwards `issueKey` and `expand` positionally to
`IssueService.getIssue` (the parameter `get`). -/
def getIssue {α : Type} (get : String → Option String → Except JsError α)
    (issueKey : String) (expand : Option String) : Except JsError α :=
  handleApiOperation (get issueKey expand) "Error getting issue"

/-- `getIssueComments`: forwards `issueKey` and `expand` positionally
to `IssueService.getComments` (the parameter `get`). -/
def getIssueComments {α : Type} (get : String → Option String → Except JsError α)
    (issueKey : String) (expand : Option String) : Except JsError α :=
  handleApiOperation (get issueKey expand) "Error getting issue comments"

/-- `postIssueComment`: forwards `issueKey`, `undefined`, and the
comment wrapped as `\x7b body: comment \x7d` to
`IssueService.addComment` (the parameter `addComment`). -/
def postIssueComment {α : Type}
    (addComment : String → Option String → List (String × JsValue) → Except JsError α)
    (issueKey comment : String) : Except JsError α :=
  handleApiOperation
    (addComment issueKey none [("body", JsValue.str comment)])
    "Error posting issue comment"

/-- The parameter object of `createIssue`. -/
structure CreateIssueParams where
  projectId : String
  summary : String
  description : String
  issueTypeId : String
  customFields : Option (List (String × JsValue))

/-- The standard fields object built by `createIssue`:
`\x7b project: \x7bkey\x7d, summary, description, issuetype: \x7bid\x7d \x7d`. -/
def standardFields (projectId summary description issueTypeId : String) :
    List (String × JsValue) :=
  [("project", JsValue.obj [("key", JsValue.str projectId)]),
   ("summary", JsValue.str summary),
   ("description", JsValue.str description),
   ("issuetype", JsValue.obj [("id", JsValue.str issueTypeId)])]

/-- `createIssue`: merges `customFields` over the standard fields by
object spread when present, and forwards `IssueService.createIssue(true,
\x7b fields \x7d)` (the generated client call is the parameter
`create`; its first argument is the validate-on-create flag). -/
def createIssue {α : Type}
    (create : Bool → List (String × JsValue) → Except JsError α)
    (params : CreateIssueParams) : Except JsError α :=
  let std := standardFields params.projectId params.summary
      params.description params.issueTypeId
  let fields :=
    match params.customFields with
    | some cf => spread std cf
    | none => std
  handleApiOperation (create true fields) "Error creating issue"

/-- JavaScript truthiness of an environment lookup: `undefined` and the
empty string are falsy. -/
def truthy : Option String → Bool
  | none => false
  | some s => !(s == "")

/-- `JiraService.validateConfig`: filters the required variable list by
truthiness of the environment, then appends the combined
host-or-base-path descriptor when neither alternative is truthy. -/
def validateConfig (env : String → Option String) : List String :=
  let requiredEnvVars : List String := ["JIRA_API_TOKEN"]
  let missingVars : List String :=
    requiredEnvVars.filter (fun varName => !truthy (env varName))
  if !truthy (env "JIRA_HOST") && !truthy (env "JIRA_API_BASE_PATH") then
    missingVars ++ ["JIRA_HOST or JIRA_API_BASE_PATH"]
  else
    missingVars

end JiraService

/-- One call into the façade layer, for tracking how the shared
`OpenAPI` configuration evolves over a call sequence. -/
inductive FacadeCall where
  | construct (host token : String) (fullBaseUrl : Option String)
  | searchIssues (jql : String) (startAt : Option Int)
      (expand : Option (List String)) (maxResults : Option Int)
  | getIssue (issueKey : String) (expand : Option String)
  | getIssueComments (issueKey : String) (expand : Option String)
  | postIssueComment (issueKey comment : String)
  | createIssue (params : JiraService.CreateIssueParams)

/-- Effect of one façade call on the shared `OpenAPI` configuration:
only the constructor writes it; the five operations' bodies contain no
assignment to `OpenAPI`. -/
def stepConfig (cfg : OpenAPI) : FacadeCall → OpenAPI
  | .construct h t u => JiraService.construct h t u cfg
  | .searchIssues _ _ _ _ => cfg
  | .getIssue _ _ => cfg
  | .getIssueComments _ _ => cfg
  | .postIssueComment _ _ => cfg
  | .createIssue _ => cfg

/-! ## Helper lemmas for object spread -/

/-- Key membership test on an object. -/
def hasKey (o : List (String × JsValue)) (k : String) : Bool :=
  o.any (fun kv => kv.1 = k)

theorem objGet_setKey (o : List (String × JsValue)) (k₀ k : String) (v₀ : JsValue) :
    objGet (setKey o k₀ v₀) k = if k₀ = k then some v₀ else objGet o k := by
  induction o with
  | nil => simp [setKey, objGet]
  | cons hd tl ih =>
    obtain ⟨k₁, v₁⟩ := hd
    by_cases h₁ : k₁ = k₀
    · subst h₁
      by_cases h₂ : k₁ = k <;> simp [setKey, objGet, h₂]
    · by_cases h₂ : k₁ = k <;> by_cases h₃ : k₀ = k <;>
        simp_all [setKey, objGet]

theorem objGet_eq_none_of_not_mem (o : List (String × JsValue)) (k : String)
    (h : k ∉ o.map Prod.fst) : objGet o k = none := by
  induction o with
  | nil => rfl
  | cons hd tl ih =>
    obtain ⟨k₁, v₁⟩ := hd
    simp only [List.map_cons, List.mem_cons] at h
    push_neg at h
    have h₁ : ¬ k₁ = k := fun hh => h.1 hh.symm
    simp [objGet, h₁, ih h.2]

theorem objGet_spread (a b : List (String × JsValue))
    (hb : (b.map Prod.fst).Nodup) (k : String) :
    objGet (spread a b) k = orElseO (objGet b k) (objGet a k) := by
  induction b generalizing a with
  | nil => simp [spread, orElseO, objGet]
  | cons hd tl ih =>
    obtain ⟨k₀, v₀⟩ := hd
    simp only [List.map_cons, List.nodup_cons] at hb
    have hstep : spread a ((k₀, v₀) :: tl) = spread (setKey a k₀ v₀) tl := rfl
    rw [hstep, ih (setKey a k₀ v₀) hb.2]
    by_cases h : k₀ = k
    · subst h
      rw [objGet_eq_none_of_not_mem tl k₀ hb.1]
      simp [orElseO, objGet, objGet_setKey]
    · simp [objGet, h, objGet_setKey]

/-! ## Claim theorems -/

/-- Claim C1: invoking the Operation Wrapper on an operation that
rejects with `e` under context message `c` produces a rejection with a
single normalized error whose message is exactly `c ++ ": " ++
e.message` — so it extends `c` and hence contains it — and whose cause
is the error `e` itself (object identity is rendered as equality in
this pure embedding). -/
theorem handleApiOperation_rejects_normalized {α : Type} (c : String) (e : JsError) :
    handleApiOperation (α := α) (Except.error e) c =
      Except.error (JsError.mk (c ++ ": " ++ e.message) (some e)) ∧
    ∃ rest : String, c ++ ": " ++ e.message = c ++ rest :=
  ⟨rfl, ⟨": " ++ e.message, String.append_assoc c ": " e.message⟩⟩

/-- Claim C6: an operation that resolves with `v` passes through the
Operation Wrapper unchanged — the wrapper's result is the very value
`v`, with no transformation applied. -/
theorem handleApiOperation_ok_passthrough {α : Type} (v : α) (c : String) :
    handleApiOperation (Except.ok v) c = Except.ok v :=
  rfl

/-- Claim C4: when the `fullBaseUrl` override is supplied the client's
base URL is exactly that URL; when it is absent the base URL is derived
as `https://` ++ host ++ `/rest`. -/
theorem construct_base_url (host token u : String) (prev : OpenAPI) :
    (JiraService.construct host token (some u) prev).BASE = u ∧
    (JiraService.construct host token none prev).BASE =
      "https://" ++ host ++ "/rest" :=
  ⟨rfl, rfl⟩

/-- Claim C9: every construction sets the client configuration's API
version to the constant `"2"` regardless of arguments, and after any
construction the version stays `"2"` through any further sequence of
façade calls (operations never write it; further constructions reset
it to `"2"`). -/
theorem version_always_two (h t : String) (u : Option String)
    (cfg : OpenAPI) (calls : List FacadeCall) :
    (calls.foldl stepConfig
      (stepConfig cfg (FacadeCall.construct h t u))).VERSION = "2" := by
  have key : ∀ (c : OpenAPI), c.VERSION = "2" → ∀ (cs : List FacadeCall),
      (cs.foldl stepConfig c).VERSION = "2" := by
    intro c hc cs
    induction cs generalizing c with
    | nil => exact hc
    | cons hd tl ih =>
      simp only [List.foldl]
      apply ih
      cases hd <;> simp [stepConfig, JiraService.construct, hc]
  exact key _ rfl calls

/-- Claim C5: `searchIssues` forwards `jql`, `startAt`, `expand` and
`maxResults` as the fields of a single search request object, and an
omitted `maxResults` is forwarded as the default `10`. -/
theorem searchIssues_forwards_request {α : Type}
    (search : JiraService.SearchRequest → Except JsError α)
    (jql : String) (startAt : Option Int) (expand : Option (List String)) :
    JiraService.searchIssues search jql startAt expand none =
      handleApiOperation (search ⟨jql, 10, expand, startAt⟩)
        "Error searching issues" ∧
    ∀ mr : Int, JiraService.searchIssues search jql startAt expand (some mr) =
      handleApiOperation (search ⟨jql, mr, expand, startAt⟩)
        "Error searching issues" :=
  ⟨rfl, fun _ => rfl⟩

/-- Claim C8: `postIssueComment` forwards the comment to the
underlying add-comment call wrapped as the object with single property
`body` holding the comment string verbatim (no validation, no
transformation). -/
theorem postIssueComment_wraps_body {α : Type}
    (addComment : String → Option String → List (String × JsValue) → Except JsError α)
    (issueKey comment : String) :
    JiraService.postIssueComment addComment issueKey comment =
      handleApiOperation
        (addComment issueKey none [("body", JsValue.str comment)])
        "Error posting issue comment" :=
  rfl

/-- Claim C2: `createIssue` forwards the standard fields object
shallow-merged with the custom fields (for any key, the custom binding
wins when present, otherwise the standard binding applies), and passes
the issue-creation validation flag as `true`.  Custom field bags have
unique keys, as every JavaScript object does. -/
theorem createIssue_merges_custom_fields (p s d t : String)
    (m : List (String × JsValue)) (hm : (m.map Prod.fst).Nodup) :
    (∀ (α : Type) (create : Bool → List (String × JsValue) → Except JsError α),
      JiraService.createIssue create ⟨p, s, d, t, some m⟩ =
        handleApiOperation
          (create true (spread (JiraService.standardFields p s d t) m))
          "Error creating issue") ∧
    ∀ k : String,
      objGet (spread (JiraService.standardFields p s d t) m) k =
        orElseO (objGet m k)
          (objGet (JiraService.standardFields p s d t) k) :=
  ⟨fun _ _ => rfl, fun k => objGet_spread _ m hm k⟩

/-- Witness for C2 at the spec's own example: `summary = "original"`,
`customFields = \x7b summary: "override" \x7d`; the merged `summary`
is the custom one. -/
theorem createIssue_merges_custom_fields_witness :
    (([("summary", JsValue.str "override")]).map Prod.fst).Nodup ∧
    objGet (spread (JiraService.standardFields "PROJ" "original" "desc" "10001")
        [("summary", JsValue.str "override")]) "summary" =
      orElseO (objGet [("summary", JsValue.str "override")] "summary")
        (objGet (JiraService.standardFields "PROJ" "original" "desc" "10001")
          "summary") :=
  ⟨by simp,
   (createIssue_merges_custom_fields "PROJ" "original" "desc" "10001"
      [("summary", JsValue.str "override")] (by simp)).2 "summary"⟩

/-- Claim C3: `validateConfig` reports missing settings as data: with
no relevant environment variable set it returns the token-variable
name followed by the combined host-or-base-path descriptor; with the
token and host variables both set (to truthy values, which is how the
code tests presence) it returns the empty sequence. -/
theorem validateConfig_reports_missing :
    JiraService.validateConfig (fun _ => none) =
      ["JIRA_API_TOKEN", "JIRA_HOST or JIRA_API_BASE_PATH"] ∧
    ∀ env : String → Option String,
      JiraService.truthy (env "JIRA_API_TOKEN") = true →
      JiraService.truthy (env "JIRA_HOST") = true →
      JiraService.validateConfig env = [] := by
  refine ⟨rfl, fun env h1 h2 => ?_⟩
  simp [JiraService.validateConfig, h1, h2]

/-- Witness for C3 with both variables set to `"x"`. -/
theorem validateConfig_reports_missing_witness :
    JiraService.truthy ((fun _ : String => some "x") "JIRA_API_TOKEN") = true ∧
    JiraService.truthy ((fun _ : String => some "x") "JIRA_HOST") = true ∧
    JiraService.validateConfig (fun _ => some "x") = [] :=
  ⟨rfl, rfl, validateConfig_reports_missing.2 (fun _ => some "x") rfl rfl⟩

/-- Characterization of `validateConfig`: the result is the token name
(when the token variable is not truthy) followed by the combined
descriptor (when neither host nor base-path variable is truthy). -/
theorem validateConfig_eq (env : String → Option String) :
    JiraService.validateConfig env =
      (if JiraService.truthy (env "JIRA_API_TOKEN") then []
       else ["JIRA_API_TOKEN"]) ++
      (if JiraService.truthy (env "JIRA_HOST") ||
          JiraService.truthy (env "JIRA_API_BASE_PATH") then []
       else ["JIRA_HOST or JIRA_API_BASE_PATH"]) := by
  unfold JiraService.validateConfig
  cases hT : JiraService.truthy (env "JIRA_API_TOKEN") <;>
    cases hH : JiraService.truthy (env "JIRA_HOST") <;>
      cases hB : JiraService.truthy (env "JIRA_API_BASE_PATH") <;>
        simp [hT, hH, hB, List.filter]

/-- Claim C10: `validateConfig` treats a variable set to the empty
string exactly as an absent one (presence is tested by truthiness),
and its result has a fixed order: the token-variable name, when
missing, always precedes the combined host-or-base-path descriptor. -/
theorem validateConfig_truthiness_and_order :
    (∀ (env : String → Option String) (v : String), env v = some "" →
      JiraService.validateConfig env =
        JiraService.validateConfig (fun w => if w = v then none else env w)) ∧
    ∀ env : String → Option String,
      JiraService.validateConfig env =
        (if JiraService.truthy (env "JIRA_API_TOKEN") then []
         else ["JIRA_API_TOKEN"]) ++
        (if JiraService.truthy (env "JIRA_HOST") ||
            JiraService.truthy (env "JIRA_API_BASE_PATH") then []
         else ["JIRA_HOST or JIRA_API_BASE_PATH"]) := by
  have tr_eq : ∀ (env : String → Option String) (v : String), env v = some "" →
      ∀ K : String,
        JiraService.truthy ((fun w => if w = v then none else env w) K) =
          JiraService.truthy (env K) := by
    intro env v h K
    by_cases hK : K = v
    · subst hK
      simp [h, JiraService.truthy]
    · simp [hK]
  refine ⟨fun env v h => ?_, validateConfig_eq⟩
  rw [validateConfig_eq env, validateConfig_eq (fun w => if w = v then none else env w),
    tr_eq env v h "JIRA_API_TOKEN", tr_eq env v h "JIRA_HOST",
    tr_eq env v h "JIRA_API_BASE_PATH"]

/-- Witness for C10: an environment holding the empty string
everywhere is treated like one where `JIRA_API_TOKEN` is absent. -/
theorem validateConfig_truthiness_and_order_witness :
    ((fun _ : String => (some "" : Option String)) "JIRA_API_TOKEN" = some "") ∧
    JiraService.validateConfig (fun _ => some "") =
      JiraService.validateConfig
        (fun w => if w = "JIRA_API_TOKEN" then none
         else (fun _ : String => (some "" : Option String)) w) :=
  ⟨rfl, validateConfig_truthiness_and_order.1 (fun _ => some "")
    "JIRA_API_TOKEN" rfl⟩

/-- Claim C7 (counterexample): the connection configuration is NOT
owned exclusively by a façade instance — constructing a second
`JiraService` overwrites the shared client configuration written by
the first construction, so the configuration observed after the second
construction differs from the one the first instance set. -/
theorem construct_shared_counterexample :
    JiraService.construct "b.example.com" "token2" none
        (JiraService.construct "a.example.com" "token1" none
          OpenAPI.initialConfig) ≠
      JiraService.construct "a.example.com" "token1" none
        OpenAPI.initialConfig := by
  decide

/-- Claim C7 (amended): the connection configuration is written to a
process-wide shared client configuration object at construction; none
of the five façade operations writes it afterwards, but constructing
another façade instance overwrites all of it (the result of a
construction is independent of the previous configuration), so the
configuration is shared global state rather than exclusively owned by
one instance. -/
theorem config_ops_frame_and_construct_overwrite :
    (∀ (cfg : OpenAPI) (jql : String) (s : Option Int)
        (e : Option (List String)) (m : Option Int),
      stepConfig cfg (FacadeCall.searchIssues jql s e m) = cfg) ∧
    (∀ (cfg : OpenAPI) (k : String) (e : Option String),
      stepConfig cfg (FacadeCall.getIssue k e) = cfg) ∧
    (∀ (cfg : OpenAPI) (k : String) (e : Option String),
      stepConfig cfg (FacadeCall.getIssueComments k e) = cfg) ∧
    (∀ (cfg : OpenAPI) (k c : String),
      stepConfig cfg (FacadeCall.postIssueComment k c) = cfg) ∧
    (∀ (cfg : OpenAPI) (p : JiraService.CreateIssueParams),
      stepConfig cfg (FacadeCall.createIssue p) = cfg) ∧
    ∀ (cfg cfg₂ : OpenAPI) (h t : String) (u : Option String),
      stepConfig cfg (FacadeCall.construct h t u) =
        stepConfig cfg₂ (FacadeCall.construct h t u) :=
  ⟨fun _ _ _ _ _ => rfl, fun _ _ _ => rfl, fun _ _ _ => rfl,
   fun _ _ _ => rfl, fun _ _ => rfl, fun _ _ _ _ _ => rfl⟩
